import Mathlib

/-!
Shallow embedding of the EmbeddedSpaceWire core (frame codec, router,
link state, packet integration layer) and proofs about its documented
behaviour.

Bytes are modelled as `Nat` values (< 256 where the C type system
guarantees it); buffers are `List Nat` whose length plays the role of
the C `buf_len` argument; nullable pointers are `Option`; functions that
mutate through a pointer return the updated value alongside their C
return code.
-/

/- ============================================================
   CRC-16-CCITT
   ============================================================ -/

/-- Modelled from the spec: the body of `sw_crc16` (src/spacewire_codec.c) is
not part of the provided sources, only its declaration.  Spec §4.2:
CRC-16-CCITT, polynomial 0x1021, initial value 0xFFFF, a pure deterministic
function of the input bytes.  One shift step of the bitwise formulation
(mathematically equivalent to the table-driven one). -/
def crc16Shift (c : Nat) : Nat :=
  if c &&& 0x8000 ≠ 0 then ((c <<< 1) ^^^ 0x1021) &&& 0xFFFF
  else (c <<< 1) &&& 0xFFFF

/-- Modelled from the spec: absorb one byte into the running CRC. -/
def crc16Update (c b : Nat) : Nat :=
  crc16Shift^[8] (c ^^^ ((b &&& 0xFF) <<< 8))

/-- Modelled from the spec: `sw_crc16` over a byte list, initial value 0xFFFF. -/
def sw_crc16 (data : List Nat) : Nat :=
  data.foldl crc16Update 0xFFFF

theorem crc16Shift_lt (c : Nat) : crc16Shift c < 65536 := by
  unfold crc16Shift
  split <;> exact Nat.lt_succ_of_le Nat.and_le_right

theorem crc16Update_lt (c b : Nat) : crc16Update c b < 65536 := by
  unfold crc16Update
  rw [Function.iterate_succ_apply']
  exact crc16Shift_lt _

theorem foldl_crc16_lt (l : List Nat) (c : Nat) (hc : c < 65536) :
    l.foldl crc16Update c < 65536 := by
  induction l generalizing c with
  | nil => exact hc
  | cons b t ih => exact ih _ (crc16Update_lt _ _)

theorem sw_crc16_lt (l : List Nat) : sw_crc16 l < 65536 :=
  foldl_crc16_lt l 0xFFFF (by decide)

/- ============================================================
   Frame layer (src/src/spacewire_frame.c)
   ============================================================ -/

/-- Model of `sw_frame_t`: target address, protocol id, payload pointer
(`none` = NULL) and payload length. -/
structure sw_frame_t where
  target_addr : Nat
  protocol_id : Nat
  payload : Option (List Nat)
  payload_len : Nat
deriving DecidableEq, Repr

/-- Model of `sw_frame_size`: 0 for a NULL frame, else header (2) +
payload length + CRC (2). -/
def sw_frame_size : Option sw_frame_t → Nat
  | none => 0
  | some f => 2 + f.payload_len + 2

/-- Bytes written by the encoder before the CRC: the two header bytes
(each stored through a `uint8_t`, hence reduced mod 256) followed by the
`memcpy`ed payload bytes (skipped when the payload pointer is NULL or
the length is zero). -/
def frameBody (f : sw_frame_t) : List Nat :=
  [f.target_addr % 256, f.protocol_id % 256] ++
    (match f.payload with
     | some p => if 0 < f.payload_len then p.take f.payload_len else []
     | none => [])

/-- Model of `sw_frame_encode`: returns the C return value (bytes
written) together with the destination buffer's new contents. -/
def sw_frame_encode (frame : Option sw_frame_t) (buf : Option (List Nat)) :
    Nat × Option (List Nat) :=
  match frame, buf with
  | some f, some b =>
    if b.length < sw_frame_size (some f) then (0, some b)
    else
      let body := frameBody f
      let crc := sw_crc16 body
      let written := body ++ [(crc >>> 8) &&& 0xFF, crc &&& 0xFF]
      (written.length, some (written ++ b.drop written.length))
  | _, _ => (0, buf)

/-- Model of `sw_frame_decode`: returns the C return value (1 = success,
0 = failure) together with the caller's frame structure after the call.
The header fields are assigned before the CRC comparison, exactly as in
the C source. -/
def sw_frame_decode (frame : Option sw_frame_t) (buf : Option (List Nat)) :
    Nat × Option sw_frame_t :=
  match frame, buf with
  | some f, some b =>
    if b.length < 4 then (0, some f)
    else
      let f1 : sw_frame_t :=
        { f with target_addr := b.getD 0 0, protocol_id := b.getD 1 0 }
      let received := b.getD (b.length - 2) 0 * 256 + b.getD (b.length - 1) 0
      let calculated := sw_crc16 (b.take (b.length - 2))
      if received ≠ calculated then (0, some f1)
      else
        (1, some { f1 with
                     payload := some ((b.drop 2).take (b.length - 4)),
                     payload_len := (b.length - 4) % 65536 })
  | some f, none => (0, some f)
  | none, _ => (0, none)

/- ============================================================
   Helper lemmas
   ============================================================ -/

theorem and_255_eq_mod (x : Nat) : x &&& 0xFF = x % 256 := by
  simpa using Nat.and_pow_two_sub_one_eq_mod x 8

theorem crc_be_recompose (c : Nat) (h : c < 65536) :
    ((c >>> 8) &&& 0xFF) * 256 + (c &&& 0xFF) = c := by
  rw [and_255_eq_mod, and_255_eq_mod, Nat.shiftRight_eq_div_pow]
  have h1 : c / 2 ^ 8 < 256 := by omega
  rw [Nat.mod_eq_of_lt h1]
  omega

theorem getD_append_pair_fst (l : List Nat) (x y d : Nat) :
    (l ++ [x, y]).getD l.length d = x := by
  induction l with
  | nil => rfl
  | cons a t ih => simpa [List.getD_cons_succ] using ih

theorem getD_append_pair_snd (l : List Nat) (x y d : Nat) :
    (l ++ [x, y]).getD (l.length + 1) d = y := by
  induction l with
  | nil => rfl
  | cons a t ih => simpa [List.getD_cons_succ] using ih

theorem frameBody_some (f : sw_frame_t) (p : List Nat) (hpay : f.payload = some p)
    (hlen : p.length = f.payload_len) :
    frameBody f = f.target_addr % 256 :: f.protocol_id % 256 :: p := by
  simp only [frameBody, hpay]
  by_cases hpos : 0 < f.payload_len
  · rw [if_pos hpos, ← hlen, List.take_length]
    rfl
  · have h0 : f.payload_len = 0 := by omega
    have hp : p = [] := List.eq_nil_of_length_eq_zero (by omega)
    rw [if_neg hpos, hp]
    rfl

theorem frameBody_length (f : sw_frame_t) (p : List Nat) (hpay : f.payload = some p)
    (hlen : p.length = f.payload_len) :
    (frameBody f).length = 2 + f.payload_len := by
  rw [frameBody_some f p hpay hlen]
  simp [hlen]
  omega

/-- Characterization of the success path of `sw_frame_encode` for a frame
whose payload pointer is present and consistent with its length field. -/
theorem sw_frame_encode_some (f : sw_frame_t) (p b : List Nat)
    (hpay : f.payload = some p) (hlen : p.length = f.payload_len)
    (hb : 4 + f.payload_len ≤ b.length) :
    sw_frame_encode (some f) (some b) =
      (4 + f.payload_len,
       some ((frameBody f ++ [(sw_crc16 (frameBody f) >>> 8) &&& 0xFF,
                              sw_crc16 (frameBody f) &&& 0xFF])
             ++ b.drop (4 + f.payload_len))) := by
  have hbl : (frameBody f).length = 2 + f.payload_len := frameBody_length f p hpay hlen
  have hwl : (frameBody f ++ [(sw_crc16 (frameBody f) >>> 8) &&& 0xFF,
                              sw_crc16 (frameBody f) &&& 0xFF]).length
      = 4 + f.payload_len := by
    simp [hbl]
    omega
  simp only [sw_frame_encode, sw_frame_size]
  rw [if_neg (by omega)]
  simp only [hwl]

/-- Decoding a well-formed encoded frame buffer succeeds and recovers the
header bytes and payload, overwriting every field of the caller's frame. -/
theorem frame_decode_encoded (g : sw_frame_t) (t pid : Nat) (p : List Nat)
    (hplen : p.length ≤ 65535) :
    sw_frame_decode (some g)
      (some ((t :: pid :: p) ++ [(sw_crc16 (t :: pid :: p) >>> 8) &&& 0xFF,
                                 sw_crc16 (t :: pid :: p) &&& 0xFF])) =
      (1, some ⟨t, pid, some p, p.length⟩) := by
  set l := t :: pid :: p with hl
  set crc := sw_crc16 l with hcrc
  set w := l ++ [(crc >>> 8) &&& 0xFF, crc &&& 0xFF] with hw
  have hll : l.length = p.length + 2 := by simp [hl]
  have hwlen : w.length = p.length + 4 := by simp [hw, hll]
  have h2 : w.length - 2 = l.length := by omega
  have h1 : w.length - 1 = l.length + 1 := by omega
  have hrec : w.getD (w.length - 2) 0 * 256 + w.getD (w.length - 1) 0 = crc := by
    rw [h2, h1, hw, getD_append_pair_fst, getD_append_pair_snd]
    exact crc_be_recompose crc (hcrc ▸ sw_crc16_lt l)
  have hcalc : w.take (w.length - 2) = l := by
    rw [h2, hw]
    exact List.take_left _ _
  have heq : w.getD (w.length - 2) 0 * 256 + w.getD (w.length - 1) 0
      = sw_crc16 (w.take (w.length - 2)) := by
    rw [hcalc, ← hcrc]
    exact hrec
  simp only [sw_frame_decode]
  rw [if_neg (by omega)]
  rw [if_neg (fun hne => hne heq)]
  have hg0 : w.getD 0 0 = t := by simp [hw, hl]
  have hg1 : w.getD 1 0 = pid := by simp [hw, hl]
  have hd : w.drop 2 = p ++ [(crc >>> 8) &&& 0xFF, crc &&& 0xFF] := by
    rw [hw, hl]
    rfl
  have h4 : w.length - 4 = p.length := by omega
  have hdrop : (w.drop 2).take (w.length - 4) = p := by
    rw [hd, h4]
    exact List.take_left _ _
  have hmod : (w.length - 4) % 65536 = p.length := by
    rw [h4]
    exact Nat.mod_eq_of_lt (by omega)
  rw [hg0, hg1, hdrop, hmod]

/-- C1.  Frame round-trip: for every 8-bit target address and protocol id
and every payload of length at most 65535, encoding into a sufficiently
large buffer returns `4 + payload length` bytes, and decoding those bytes
(into an arbitrary prior frame `g`) succeeds and reproduces target
address, protocol id, payload length and payload bytes exactly. -/
theorem frame_roundtrip (t pid : Nat) (p b : List Nat) (g : sw_frame_t)
    (ht : t < 256) (hpid : pid < 256) (hplen : p.length ≤ 65535)
    (hb : 4 + p.length ≤ b.length) :
    (sw_frame_encode (some ⟨t, pid, some p, p.length⟩) (some b)).1 = 4 + p.length ∧
    sw_frame_decode (some g)
      (some (((sw_frame_encode (some ⟨t, pid, some p, p.length⟩) (some b)).2.getD []).take
        (4 + p.length))) = (1, some ⟨t, pid, some p, p.length⟩) := by
  have hbody : frameBody ⟨t, pid, some p, p.length⟩ = t :: pid :: p := by
    rw [frameBody_some _ p rfl rfl]
    simp [Nat.mod_eq_of_lt ht, Nat.mod_eq_of_lt hpid]
  have henc := sw_frame_encode_some ⟨t, pid, some p, p.length⟩ p b rfl rfl hb
  rw [hbody] at henc
  have hwl : ((t :: pid :: p) ++ [(sw_crc16 (t :: pid :: p) >>> 8) &&& 0xFF,
              sw_crc16 (t :: pid :: p) &&& 0xFF]).length = 4 + p.length := by
    simp
    omega
  rw [henc]
  refine ⟨rfl, ?_⟩
  simp only [Option.getD_some]
  rw [List.take_left' hwl]
  exact frame_decode_encoded g t pid p hplen

/-- Witness for C1 at a concrete frame and buffer. -/
theorem frame_roundtrip_witness :
    (sw_frame_encode (some ⟨1, 2, some [3], 1⟩) (some [0, 0, 0, 0, 0])).1 = 4 + 1 ∧
    sw_frame_decode (some ⟨0, 1, none, 0⟩)
      (some (((sw_frame_encode (some ⟨1, 2, some [3], 1⟩)
                (some [0, 0, 0, 0, 0])).2.getD []).take (4 + 1))) =
      (1, some ⟨1, 2, some [3], 1⟩) :=
  frame_roundtrip 1 2 [3] [0, 0, 0, 0, 0] ⟨0, 1, none, 0⟩
    (by decide) (by decide) (by decide) (by decide)

theorem crc_hi_eq (c : Nat) (h : c < 65536) : (c >>> 8) &&& 0xFF = c / 256 := by
  rw [and_255_eq_mod, Nat.shiftRight_eq_div_pow]
  have h1 : c / 2 ^ 8 < 256 := by omega
  rw [Nat.mod_eq_of_lt h1]
  norm_num

/-- C2.  Encode postcondition and failure: absent frame or buffer returns 0
and leaves the buffer untouched; a buffer shorter than
`sw_frame_size(frame) = 4 + payload_len` returns 0 and leaves it untouched;
otherwise exactly `4 + payload_len` bytes are written: target address at
byte 0, protocol id at byte 1, the payload bytes, then the CRC16 of the
preceding bytes, big-endian. -/
theorem sw_frame_encode_contract :
    (∀ b, sw_frame_encode none b = (0, b)) ∧
    (∀ f, sw_frame_encode (some f) none = (0, none)) ∧
    (∀ f, sw_frame_size (some f) = 4 + f.payload_len) ∧
    (∀ f b, b.length < sw_frame_size (some f) →
       sw_frame_encode (some f) (some b) = (0, some b)) ∧
    (∀ f p b, f.target_addr < 256 → f.protocol_id < 256 →
       f.payload = some p → p.length = f.payload_len →
       sw_frame_size (some f) ≤ b.length →
       sw_frame_encode (some f) (some b) =
         (4 + f.payload_len,
          some ((f.target_addr :: f.protocol_id :: p)
                ++ [sw_crc16 (f.target_addr :: f.protocol_id :: p) / 256,
                    sw_crc16 (f.target_addr :: f.protocol_id :: p) % 256]
                ++ b.drop (4 + f.payload_len)))) := by
  refine ⟨?_, ?_, ?_, ?_, ?_⟩
  · intro b
    cases b <;> rfl
  · intro f
    rfl
  · intro f
    simp [sw_frame_size]
    omega
  · intro f b h
    simp only [sw_frame_encode]
    rw [if_pos h]
  · intro f p b ht hpid hpay hlen hb
    have hb4 : 4 + f.payload_len ≤ b.length := by
      simp only [sw_frame_size] at hb
      omega
    have henc := sw_frame_encode_some f p b hpay hlen hb4
    rw [henc, frameBody_some f p hpay hlen,
        Nat.mod_eq_of_lt ht, Nat.mod_eq_of_lt hpid,
        crc_hi_eq _ (sw_crc16_lt _), and_255_eq_mod]

/-- Witness for C2: the short-buffer branch and the success branch at
concrete inputs. -/
theorem sw_frame_encode_contract_witness :
    sw_frame_encode (some ⟨1, 2, some [3], 1⟩) (some [0, 0]) = (0, some [0, 0]) ∧
    sw_frame_encode (some ⟨1, 2, some [3], 1⟩) (some [9, 9, 9, 9, 9, 9]) =
      (4 + 1,
       some ((1 :: 2 :: [3])
             ++ [sw_crc16 (1 :: 2 :: [3]) / 256, sw_crc16 (1 :: 2 :: [3]) % 256]
             ++ [9, 9, 9, 9, 9, 9].drop (4 + 1))) :=
  ⟨sw_frame_encode_contract.2.2.2.1 ⟨1, 2, some [3], 1⟩ [0, 0] (by decide),
   sw_frame_encode_contract.2.2.2.2 ⟨1, 2, some [3], 1⟩ [3] [9, 9, 9, 9, 9, 9]
     (by decide) (by decide) rfl rfl (by decide)⟩

/-- Counterexample to C3: on a CRC mismatch `sw_frame_decode` returns 0,
but the caller's frame is not left unchanged: its header fields have been
overwritten with the first two buffer bytes. -/
theorem frame_decode_mismatch_cex :
    sw_frame_decode (some ⟨5, 6, some [7], 1⟩) (some [1, 2, 0, 0]) =
      (0, some ⟨1, 2, some [7], 1⟩) ∧
    (⟨1, 2, some [7], 1⟩ : sw_frame_t) ≠ ⟨5, 6, some [7], 1⟩ := by
  constructor
  · decide
  · decide

/-- C3 amended.  On a CRC mismatch `sw_frame_decode` reports failure
(returns 0) and no successful frame is produced, but the caller's frame
does not stay entirely unchanged: its `target_addr` and `protocol_id`
fields are overwritten with the first two bytes of the buffer; only the
payload fields are left as they were. -/
theorem frame_decode_mismatch_partial (f : sw_frame_t) (b : List Nat)
    (hlen : 4 ≤ b.length)
    (hmm : b.getD (b.length - 2) 0 * 256 + b.getD (b.length - 1) 0
           ≠ sw_crc16 (b.take (b.length - 2))) :
    sw_frame_decode (some f) (some b) =
      (0, some { f with target_addr := b.getD 0 0, protocol_id := b.getD 1 0 }) := by
  simp only [sw_frame_decode]
  rw [if_neg (by omega), if_pos hmm]

/-- Witness for the amended C3 at a concrete frame and buffer. -/
theorem frame_decode_mismatch_partial_witness :
    sw_frame_decode (some ⟨5, 6, some [9], 1⟩) (some [3, 4, 0, 0]) =
      (0, some ⟨3, 4, some [9], 1⟩) :=
  frame_decode_mismatch_partial ⟨5, 6, some [9], 1⟩ [3, 4, 0, 0]
    (by decide) (by decide)

/- ============================================================
   Router and link state (src/spacewire_router.c)
   ============================================================ -/

/-- Link states of `sw_link_state_t`. -/
inductive sw_link_state_t where
  | uninitialized
  | ready
  | started
  | connected
  | error
deriving DecidableEq, Repr

/-- Model of `sw_route_t`. -/
structure sw_route_t where
  dest_addr : Nat
  output_port : Nat
deriving DecidableEq, Repr

/-- Model of `sw_virtual_channel_t`. -/
structure sw_virtual_channel_t where
  channel_id : Nat
  active : Nat
  fct_credits : Nat
deriving DecidableEq, Repr

/-- Model of `sw_link_t` (the router's per-port link record). -/
structure sw_link_t where
  port_id : Nat
  state : sw_link_state_t
  tx_packets : Nat
  rx_packets : Nat
  errors : Nat
deriving DecidableEq, Repr

/-- Model of `sw_router_t`: the fixed-capacity C arrays are modelled as
index functions; all accesses in the operations are range-guarded exactly
as in the source (`SW_MAX_PORTS = 8`, `SW_MAX_VIRTUAL_CHANNELS = 16`). -/
structure sw_router_t where
  links : Nat → sw_link_t
  channels : Nat → sw_virtual_channel_t
  routes : Nat → sw_route_t
  device_addr : Nat
  num_ports : Nat

/-- Model of `sw_router_init`: `memset` zeroes everything, the device
address and the clamped port count are stored, ports below `num_ports`
get their id, and all 16 virtual channels get 64 default credits. -/
def sw_router_init (device_addr num_ports : Nat) : sw_router_t :=
  let np := if num_ports ≤ 8 then num_ports else 8
  { links := fun i =>
      if i < np then ⟨i, .uninitialized, 0, 0, 0⟩ else ⟨0, .uninitialized, 0, 0, 0⟩
    channels := fun i => if i < 16 then ⟨i, 0, 64⟩ else ⟨0, 0, 0⟩
    routes := fun _ => ⟨0, 0⟩
    device_addr := device_addr
    num_ports := np }

/-- Model of `sw_router_add_route`: silently ignored for a null router,
a destination at or beyond `SW_MAX_PORTS = 8` (the table capacity), or a
port at or beyond `num_ports`; otherwise overwrites the entry. -/
def sw_router_add_route (router : Option sw_router_t) (dest_addr output_port : Nat) :
    Option sw_router_t :=
  match router with
  | none => none
  | some r =>
    if 8 ≤ dest_addr ∨ r.num_ports ≤ output_port then some r
    else some { r with routes := fun i =>
                  if i = dest_addr then ⟨dest_addr, output_port⟩ else r.routes i }

/-- Model of `sw_router_open_channel`. -/
def sw_router_open_channel (router : Option sw_router_t) (channel_id : Nat) :
    Nat × Option sw_router_t :=
  match router with
  | none => (0, none)
  | some r =>
    if 16 ≤ channel_id then (0, some r)
    else (1, some { r with channels := fun i =>
                      if i = channel_id then { r.channels i with active := 1 }
                      else r.channels i })

/-- Model of `sw_router_route_frame`.  `out_null` models a NULL
`output_port` argument; the returned `Option Nat` is the value written
through that pointer (`none` = nothing written), and the returned router
is the (possibly) updated one. -/
def sw_router_route_frame (router : Option sw_router_t) (frame : Option sw_frame_t)
    (out_null : Bool) : Nat × Option Nat × Option sw_router_t :=
  match router, frame, out_null with
  | none, _, _ => (0, none, none)
  | some r, none, _ => (0, none, some r)
  | some r, some _, true => (0, none, some r)
  | some r, some f, false =>
    if f.target_addr = r.device_addr then (0, none, some r)
    else if 8 ≤ f.target_addr then (0, none, some r)
    else
      let port := (r.routes f.target_addr).output_port
      if r.num_ports ≤ port then (0, none, some r)
      else if (r.links port).state ≠ .connected then (0, none, some r)
      else
        (1, some port,
         some { r with links := fun i =>
                  if i = port then { r.links i with tx_packets := (r.links i).tx_packets + 1 }
                  else r.links i })

/-- Model of `sw_link_config_t`. -/
structure sw_link_config_t where
  bit_rate : Nat
  disconnect_timeout : Nat
  rx_credit_max : Nat
  enable_crc : Nat
deriving DecidableEq, Repr

/-- Model of `sw_link_layer_t`. -/
structure sw_link_layer_t where
  config : sw_link_config_t
  state : sw_link_state_t
  rx_credits : Nat
  tx_credits : Nat
deriving DecidableEq, Repr

/-- Model of `sw_link_init`: binds the configuration, resets the state and
the credit counters; a null link or config is a no-op. -/
def sw_link_init (link : Option sw_link_layer_t) (config : Option sw_link_config_t) :
    Option sw_link_layer_t :=
  match link, config with
  | some _, some c => some ⟨c, .uninitialized, c.rx_credit_max, 0⟩
  | l, _ => l

/-- Model of `sw_link_get_state`: `SW_LINK_ERROR` for a null link, else
the stored state. -/
def sw_link_get_state (link : Option sw_link_layer_t) : sw_link_state_t :=
  match link with
  | none => .error
  | some l => l.state

/-- Model of `sw_link_set_state`. -/
def sw_link_set_state (link : Option sw_link_layer_t) (state : sw_link_state_t) :
    Option sw_link_layer_t :=
  match link with
  | none => none
  | some l => some { l with state := state }

/-- Direct struct assignment `router.links[i].state = s`, as done by the
repository's tests and example code to bring a port up. -/
def setLinkState (r : sw_router_t) (i : Nat) (s : sw_link_state_t) : sw_router_t :=
  { r with links := fun j => if j = i then { r.links j with state := s } else r.links j }

/-- Router of the spec's routing scenario: device 0x01, 2 ports, routes
0x02 to port 0 and 0x03 to port 1, both ports Connected. -/
def scenarioRouter : sw_router_t :=
  setLinkState
    (setLinkState
      ((sw_router_add_route (sw_router_add_route (some (sw_router_init 1 2)) 2 0) 3 1).getD
        (sw_router_init 0 0))
      0 .connected)
    1 .connected

/-- Counterexample to C4: in the scenario router the destination 0x04 was
never configured, yet `sw_router_route_frame` does not fail with a routing
miss: the zero-initialized table entry sends it to port 0, whose link is
Connected, so the call succeeds and returns port 0. -/
theorem router_unconfigured_cex :
    (sw_router_route_frame (some scenarioRouter) (some ⟨4, 1, none, 0⟩) false).1 = 1 ∧
    (sw_router_route_frame (some scenarioRouter) (some ⟨4, 1, none, 0⟩) false).2.1 = some 0 :=
  ⟨rfl, rfl⟩

/-- C4 amended.  Local delivery: a frame addressed to the router's own
device address is not routed (returns 0).  A destination configured via
`sw_router_add_route` (in range, port in range) whose mapped port's link
is Connected is routed to that port.  The call fails only when the
destination is at or beyond the table capacity 8, the mapped port is at
or beyond `num_ports`, or that port's link is not Connected — an in-range
destination that was never configured follows its zero-initialized table
entry to port 0 and is not by itself a routing miss. -/
theorem sw_router_route_frame_spec :
    (∀ r f, f.target_addr = r.device_addr →
       sw_router_route_frame (some r) (some f) false = (0, none, some r)) ∧
    (∀ r r' f dest pt,
       sw_router_add_route (some r) dest pt = some r' →
       dest < 8 → pt < r.num_ports →
       f.target_addr = dest → dest ≠ r'.device_addr →
       (r'.links pt).state = .connected →
       (sw_router_route_frame (some r') (some f) false).1 = 1 ∧
       (sw_router_route_frame (some r') (some f) false).2.1 = some pt) ∧
    (∀ r f, f.target_addr ≠ r.device_addr →
       (8 ≤ f.target_addr ∨ r.num_ports ≤ (r.routes f.target_addr).output_port ∨
        (r.links (r.routes f.target_addr).output_port).state ≠ .connected) →
       sw_router_route_frame (some r) (some f) false = (0, none, some r)) := by
  refine ⟨?_, ?_, ?_⟩
  · intro r f h
    simp only [sw_router_route_frame]
    rw [if_pos h]
  · intro r r' f dest pt hadd hdest hpt hft hne hconn
    simp only [sw_router_add_route] at hadd
    rw [if_neg (by omega)] at hadd
    injection hadd with hadd
    subst hadd
    simp only [sw_router_route_frame]
    rw [if_neg (by rw [hft]; exact hne)]
    rw [if_neg (by omega)]
    have hroute : ((fun i => if i = dest then (⟨dest, pt⟩ : sw_route_t) else r.routes i)
        f.target_addr).output_port = pt := by
      rw [hft]
      simp
    simp only [hroute]
    rw [if_neg (by simp; omega), if_neg (by simp [hconn] at hconn ⊢; exact hconn)]
    exact ⟨rfl, rfl⟩
  · intro r f hne hmiss
    simp only [sw_router_route_frame]
    rw [if_neg hne]
    by_cases h8 : 8 ≤ f.target_addr
    · rw [if_pos h8]
    · rw [if_neg h8]
      by_cases hport : r.num_ports ≤ (r.routes f.target_addr).output_port
      · rw [if_pos hport]
      · rw [if_neg hport]
        have hstate : (r.links (r.routes f.target_addr).output_port).state ≠ .connected := by
          rcases hmiss with h | h | h
          · exact absurd h h8
          · exact absurd h hport
          · exact h
        rw [if_pos hstate]

/-- Witness for the amended C4: the scenario router routes 0x02 to port 0,
delivers to itself locally, and misses on an out-of-range destination. -/
theorem sw_router_route_frame_spec_witness :
    (sw_router_route_frame (some scenarioRouter) (some ⟨1, 1, none, 0⟩) false
       = (0, none, some scenarioRouter)) ∧
    (sw_router_route_frame (some scenarioRouter) (some ⟨9, 1, none, 0⟩) false
       = (0, none, some scenarioRouter)) :=
  ⟨sw_router_route_frame_spec.1 scenarioRouter ⟨1, 1, none, 0⟩ rfl,
   sw_router_route_frame_spec.2.2 scenarioRouter ⟨9, 1, none, 0⟩
     (by decide) (Or.inl (by decide))⟩

/-- Router with device address 1 and 2 Connected ports, before any route
is configured. -/
def connRouter : sw_router_t :=
  setLinkState (setLinkState (sw_router_init 1 2) 0 .connected) 1 .connected

/-- Witness for the configured-route success clause of the amended C4:
after `sw_router_add_route 0x02 -> port 0` on a router whose port 0 is
Connected, a frame for 0x02 is routed to port 0. -/
theorem sw_router_route_frame_spec_witness2 :
    (sw_router_route_frame (sw_router_add_route (some connRouter) 2 0)
       (some ⟨2, 1, none, 0⟩) false).1 = 1 ∧
    (sw_router_route_frame (sw_router_add_route (some connRouter) 2 0)
       (some ⟨2, 1, none, 0⟩) false).2.1 = some 0 :=
  sw_router_route_frame_spec.2.1 connRouter
    ((sw_router_add_route (some connRouter) 2 0).getD (sw_router_init 0 0))
    ⟨2, 1, none, 0⟩ 2 0 rfl (by decide) (by decide) rfl (by decide) rfl

/-- C8.  After `sw_router_init` every routing-table entry is zeroed, so a
destination within table range whose entry was never overwritten maps to
output port 0; such a frame is routed to port 0 whenever port 0's link is
Connected (and the destination is not the device itself). -/
theorem router_init_zero_routes :
    (∀ d n i, (sw_router_init d n).routes i = ⟨0, 0⟩) ∧
    (∀ r f, r.routes f.target_addr = ⟨0, 0⟩ → f.target_addr < 8 →
       f.target_addr ≠ r.device_addr → 0 < r.num_ports →
       (r.links 0).state = .connected →
       (sw_router_route_frame (some r) (some f) false).1 = 1 ∧
       (sw_router_route_frame (some r) (some f) false).2.1 = some 0) := by
  constructor
  · intro d n i
    rfl
  · intro r f hzero h8 hne h0 hconn
    simp only [sw_router_route_frame]
    rw [if_neg hne, if_neg (by omega)]
    simp only [hzero]
    rw [if_neg (by simp; omega), if_neg (by simpa using hconn)]
    exact ⟨rfl, rfl⟩

/-- Witness for C8: on a freshly initialized 2-port router with port 0
Connected, the never-configured destination 4 is routed to port 0. -/
theorem router_init_zero_routes_witness :
    (sw_router_route_frame (some (setLinkState (sw_router_init 1 2) 0 .connected))
       (some ⟨4, 1, none, 0⟩) false).1 = 1 ∧
    (sw_router_route_frame (some (setLinkState (sw_router_init 1 2) 0 .connected))
       (some ⟨4, 1, none, 0⟩) false).2.1 = some 0 :=
  router_init_zero_routes.2 (setLinkState (sw_router_init 1 2) 0 .connected)
    ⟨4, 1, none, 0⟩ rfl (by decide) (by decide) (by decide) rfl

/-- Counterexample to C7: a programmer-error failure (NULL buffer, NULL
frame argument) and a steady-state failure (checksum mismatch, routing
miss) produce literally identical observable results from
`sw_frame_decode` and `sw_router_route_frame`: the same return code 0,
the same final frame, nothing written through the output pointer. -/
theorem failure_conflation_cex :
    sw_frame_decode (some ⟨1, 2, none, 0⟩) none
      = sw_frame_decode (some ⟨1, 2, none, 0⟩) (some [1, 2, 0, 0]) ∧
    sw_frame_decode (some ⟨1, 2, none, 0⟩) none = (0, some ⟨1, 2, none, 0⟩) ∧
    [1, 2, 0, 0].getD 2 0 * 256 + [1, 2, 0, 0].getD 3 0
      ≠ sw_crc16 ([1, 2, 0, 0].take 2) ∧
    sw_router_route_frame (some (sw_router_init 1 2)) none false
      = sw_router_route_frame (some (sw_router_init 1 2)) (some ⟨9, 1, none, 0⟩) false ∧
    (sw_router_route_frame (some (sw_router_init 1 2)) none false).1 = 0 :=
  ⟨by decide, by decide, by decide, rfl, rfl⟩

/-- C7 amended.  The failure classes are not distinguishable at the
immediate caller: every failure path of `sw_frame_decode` — absent frame,
absent buffer, or checksum mismatch — returns the same code 0, and every
failure path of `sw_router_route_frame` — absent router, absent frame, or
a routing miss — returns the same code 0. -/
theorem failure_code_conflation :
    (∀ b, (sw_frame_decode none b).1 = 0) ∧
    (∀ f, (sw_frame_decode (some f) none).1 = 0) ∧
    (∀ f b, 4 ≤ b.length →
       b.getD (b.length - 2) 0 * 256 + b.getD (b.length - 1) 0
         ≠ sw_crc16 (b.take (b.length - 2)) →
       (sw_frame_decode (some f) (some b)).1 = 0) ∧
    (∀ f o, (sw_router_route_frame none f o).1 = 0) ∧
    (∀ r o, (sw_router_route_frame (some r) none o).1 = 0) ∧
    (∀ r f, f.target_addr ≠ r.device_addr → 8 ≤ f.target_addr →
       (sw_router_route_frame (some r) (some f) false).1 = 0) := by
  refine ⟨fun b => rfl, fun f => rfl, ?_, fun f o => rfl, fun r o => rfl, ?_⟩
  · intro f b hlen hmm
    simp only [sw_frame_decode]
    rw [if_neg (by omega), if_pos hmm]
  · intro r f hne h8
    simp only [sw_router_route_frame]
    rw [if_neg hne, if_pos h8]

/-- Witness for the amended C7 at concrete inputs. -/
theorem failure_code_conflation_witness :
    (sw_frame_decode (some ⟨7, 7, none, 0⟩) (some [1, 2, 0, 0])).1 = 0 ∧
    (sw_router_route_frame (some (sw_router_init 1 2)) (some ⟨8, 1, none, 0⟩) false).1 = 0 :=
  ⟨failure_code_conflation.2.2.1 ⟨7, 7, none, 0⟩ [1, 2, 0, 0] (by decide) (by decide),
   failure_code_conflation.2.2.2.2.2 (sw_router_init 1 2) ⟨8, 1, none, 0⟩
     (by decide) (by decide)⟩

/-- C10.  `sw_link_get_state` returns `SW_LINK_ERROR` for a NULL link, the
same value it returns for a link genuinely in the Error state, so the two
are not distinguishable through this accessor; for every non-null link it
returns exactly the stored state. -/
theorem sw_link_get_state_spec :
    sw_link_get_state none = .error ∧
    (∀ l : sw_link_layer_t, sw_link_get_state (some l) = l.state) ∧
    (∀ l : sw_link_layer_t, l.state = .error →
       sw_link_get_state (some l) = sw_link_get_state none) := by
  refine ⟨rfl, fun l => rfl, fun l h => ?_⟩
  simp [sw_link_get_state, h]

/-- Witness for C10: a link stored in the Error state is indistinguishable
from a NULL link through `sw_link_get_state`. -/
theorem sw_link_get_state_spec_witness :
    sw_link_get_state (some ⟨⟨0, 0, 0, 0⟩, .error, 0, 0⟩) = sw_link_get_state none :=
  sw_link_get_state_spec.2.2 ⟨⟨0, 0, 0, 0⟩, .error, 0, 0⟩ rfl

/- ============================================================
   Packet integration layer (src/src/spacewire_packet.c)
   ============================================================ -/

/-- Model of `sw_statistics_t`. -/
structure sw_statistics_t where
  packets_sent : Nat
  packets_received : Nat
  crc_errors : Nat
  frame_errors : Nat
  link_errors : Nat
  bytes_sent : Nat
  bytes_received : Nat
deriving DecidableEq, Repr

/-- Model of `sw_reset_statistics`: the zeroed global statistics. -/
def sw_reset_statistics : sw_statistics_t := ⟨0, 0, 0, 0, 0, 0, 0⟩

/-- Model of `sw_get_statistics`: a snapshot copy of the current
statistics. -/
def sw_get_statistics (s : sw_statistics_t) : sw_statistics_t := s

/-- Interface of the external CCSDS packet codec
(external/EmbeddedSpacePacket, out of scope): serialized-size query,
serializer (an empty result models `sp_packet_serialize` returning 0) and
parser (`none` models `sp_packet_parse` failure). -/
structure sp_codec (α : Type) where
  serialize_size : α → Nat
  serialize : α → List Nat
  parse : List Nat → Option α

/-- Model of `sw_packet_frame_t`: a SpaceWire frame together with an
application packet of the external codec's type. -/
structure sw_packet_frame_t (α : Type) where
  frame : sw_frame_t
  packet : α
deriving DecidableEq

/-- Model of `sw_packet_encode`: serializes the application packet,
rejects a zero or over-long serialization, frames the result, and on
success bumps `packets_sent`/`bytes_sent`.  The global statistics are
threaded explicitly. -/
def sw_packet_encode {α : Type} (c : sp_codec α) (pf : Option (sw_packet_frame_t α))
    (buf : Option (List Nat)) (stats : sw_statistics_t) :
    Nat × Option (List Nat) × sw_statistics_t :=
  match pf, buf with
  | some pf, some b =>
    let pkt_size := c.serialize_size pf.packet
    if pkt_size = 0 ∨ 65535 < pkt_size then (0, some b, stats)
    else
      let ser := c.serialize pf.packet
      if ser.length = 0 then (0, some b, stats)
      else
        let frame : sw_frame_t :=
          { pf.frame with payload := some ser, payload_len := ser.length % 65536 }
        let r := sw_frame_encode (some frame) (some b)
        if 0 < r.1 then
          (r.1, r.2, { stats with packets_sent := stats.packets_sent + 1,
                                  bytes_sent := stats.bytes_sent + r.1 })
        else (r.1, r.2, stats)
  | _, b => (0, b, stats)

/-- Model of `sw_packet_decode`: frame-decodes in place (so the embedded
frame is mutated exactly as `sw_frame_decode` mutates it), then parses the
frame payload through the external codec; on success bumps
`packets_received` and adds the whole input buffer length to
`bytes_received`. -/
def sw_packet_decode {α : Type} (c : sp_codec α) (pf : Option (sw_packet_frame_t α))
    (buf : Option (List Nat)) (stats : sw_statistics_t) :
    Nat × Option (sw_packet_frame_t α) × sw_statistics_t :=
  match pf, buf with
  | some pf, some b =>
    match sw_frame_decode (some pf.frame) (some b) with
    | (0, fr) => (0, some { pf with frame := fr.getD pf.frame }, stats)
    | (_ + 1, none) => (0, some pf, stats)
    | (_ + 1, some fr) =>
      match c.parse (fr.payload.getD []) with
      | none => (0, some { pf with frame := fr }, stats)
      | some pkt =>
        (1, some { frame := fr, packet := pkt },
         { stats with packets_received := stats.packets_received + 1,
                      bytes_received := stats.bytes_received + b.length })
  | pf, _ => (0, pf, stats)

/-- A frame decode that returns a nonzero code was given a buffer of
length at least 4. -/
theorem sw_frame_decode_pos_length (f : sw_frame_t) (b : List Nat) (n : Nat)
    (g : Option sw_frame_t) (h : sw_frame_decode (some f) (some b) = (n, g))
    (hn : 0 < n) : 4 ≤ b.length := by
  by_contra hlt
  push_neg at hlt
  simp only [sw_frame_decode] at h
  rw [if_pos hlt] at h
  injection h with h1 h2
  omega

/-- Statistics update of a successful `sw_packet_encode`. -/
theorem sw_packet_encode_stats {α : Type} (c : sp_codec α)
    (pf : Option (sw_packet_frame_t α)) (buf : Option (List Nat))
    (s : sw_statistics_t) (n : Nat) (ob : Option (List Nat)) (s' : sw_statistics_t)
    (h : sw_packet_encode c pf buf s = (n, ob, s')) (hn : 0 < n) :
    s' = { s with packets_sent := s.packets_sent + 1,
                  bytes_sent := s.bytes_sent + n } := by
  rcases pf with _ | pf <;> rcases buf with _ | b <;>
    simp only [sw_packet_encode] at h
  · injection h with h1 h2
    omega
  · injection h with h1 h2
    omega
  · injection h with h1 h2
    omega
  · split at h
    · injection h with h1 h2
      omega
    · split at h
      · injection h with h1 h2
        omega
      · split at h
        · injection h with h1 h2
          injection h2 with h2 h3
          subst h1 h3
          rfl
        · injection h with h1 h2
          omega

/-- Statistics update and minimum buffer length of a successful
`sw_packet_decode`. -/
theorem sw_packet_decode_stats {α : Type} (c : sp_codec α)
    (pf : sw_packet_frame_t α) (b : List Nat) (s : sw_statistics_t)
    (ret : Nat) (opf : Option (sw_packet_frame_t α)) (s' : sw_statistics_t)
    (h : sw_packet_decode c (some pf) (some b) s = (ret, opf, s'))
    (hr : ret = 1) :
    s' = { s with packets_received := s.packets_received + 1,
                  bytes_received := s.bytes_received + b.length } ∧
    4 ≤ b.length := by
  subst hr
  rcases hfd : sw_frame_decode (some pf.frame) (some b) with ⟨fret, fr⟩
  rcases fret with _ | k
  · simp only [sw_packet_decode, hfd] at h
    injection h with h1 h2
    omega
  · rcases fr with _ | fr
    · simp only [sw_packet_decode, hfd] at h
      injection h with h1 h2
      omega
    · rcases hp : c.parse (fr.payload.getD []) with _ | pkt
      · simp only [sw_packet_decode, hfd, hp] at h
        injection h with h1 h2
        omega
      · simp only [sw_packet_decode, hfd, hp] at h
        injection h with h1 h2
        injection h2 with h2 h3
        exact ⟨h3.symm, sw_frame_decode_pos_length pf.frame b (k + 1) (some fr) hfd (by omega)⟩

/-- C5.  Statistics contract: starting from zeroed statistics, after one
successful `sw_packet_encode` (returning n > 0 bytes) and one successful
`sw_packet_decode` of a buffer of length L, the statistics read
`packets_sent = 1`, `packets_received = 1`, `bytes_sent = n > 0` and
`bytes_received = L > 0` (the whole input buffer length); and
`sw_reset_statistics` is the all-zero record. -/
theorem sw_packet_statistics_contract {α : Type} (c : sp_codec α)
    (pf pf2 : sw_packet_frame_t α) (b b2 : List Nat)
    (hn : 0 < (sw_packet_encode c (some pf) (some b) sw_reset_statistics).1)
    (hr : (sw_packet_decode c (some pf2) (some b2)
             (sw_packet_encode c (some pf) (some b) sw_reset_statistics).2.2).1 = 1) :
    ((sw_packet_decode c (some pf2) (some b2)
        (sw_packet_encode c (some pf) (some b) sw_reset_statistics).2.2).2.2
      = { packets_sent := 1, packets_received := 1, crc_errors := 0, frame_errors := 0,
          link_errors := 0,
          bytes_sent := (sw_packet_encode c (some pf) (some b) sw_reset_statistics).1,
          bytes_received := b2.length }) ∧
    0 < (sw_packet_encode c (some pf) (some b) sw_reset_statistics).1 ∧
    0 < b2.length ∧
    sw_reset_statistics = ⟨0, 0, 0, 0, 0, 0, 0⟩ := by
  rcases henc : sw_packet_encode c (some pf) (some b) sw_reset_statistics with ⟨n, ob, s1⟩
  simp only [henc] at hn hr ⊢
  rcases hdec : sw_packet_decode c (some pf2) (some b2) s1 with ⟨ret, opf, s2⟩
  simp only [hdec] at hr ⊢
  have hs1 : s1 = { sw_reset_statistics with
                      packets_sent := sw_reset_statistics.packets_sent + 1,
                      bytes_sent := sw_reset_statistics.bytes_sent + n } :=
    sw_packet_encode_stats c (some pf) (some b) sw_reset_statistics n ob s1 henc hn
  obtain ⟨hs2, hb2⟩ := sw_packet_decode_stats c pf2 b2 s1 ret opf s2 hdec hr
  subst hs2
  subst hs1
  refine ⟨?_, hn, by omega, rfl⟩
  simp [sw_reset_statistics]

/-- Trivial external codec over `Unit`: one-byte serialization, parse
always succeeds. -/
def spUnitCodec : sp_codec Unit :=
  ⟨fun _ => 1, fun _ => [7], fun _ => some ()⟩

/-- Witness for C5 with the trivial codec at concrete buffers. -/
theorem sw_packet_statistics_contract_witness :
    ((sw_packet_decode spUnitCodec (some ⟨⟨0, 1, none, 0⟩, ()⟩) (some [5, 6, 7, 253, 45])
        (sw_packet_encode spUnitCodec (some ⟨⟨5, 6, none, 0⟩, ()⟩) (some [0, 0, 0, 0, 0])
           sw_reset_statistics).2.2).2.2
      = { packets_sent := 1, packets_received := 1, crc_errors := 0, frame_errors := 0,
          link_errors := 0,
          bytes_sent := (sw_packet_encode spUnitCodec (some ⟨⟨5, 6, none, 0⟩, ()⟩)
                           (some [0, 0, 0, 0, 0]) sw_reset_statistics).1,
          bytes_received := [5, 6, 7, 253, 45].length }) ∧
    0 < (sw_packet_encode spUnitCodec (some ⟨⟨5, 6, none, 0⟩, ()⟩) (some [0, 0, 0, 0, 0])
           sw_reset_statistics).1 ∧
    0 < [5, 6, 7, 253, 45].length ∧
    sw_reset_statistics = ⟨0, 0, 0, 0, 0, 0, 0⟩ :=
  sw_packet_statistics_contract spUnitCodec ⟨⟨5, 6, none, 0⟩, ()⟩ ⟨⟨0, 1, none, 0⟩, ()⟩
    [0, 0, 0, 0, 0] [5, 6, 7, 253, 45] (by decide) (by decide)

/-- External codec over `Unit` whose parser rejects every input (as the
real CCSDS parser does on an empty frame payload). -/
def spFailCodec : sp_codec Unit :=
  ⟨fun _ => 1, fun _ => [7], fun _ => none⟩

/-- Counterexample to C6: frame decoding succeeds (the buffer's CRC is
valid) but packet parsing fails; `sw_packet_decode` returns 0, yet the
caller's packet-frame structure is not left unchanged — its embedded
frame fields have been overwritten by the frame decode. -/
theorem sw_packet_decode_parse_fail_cex :
    (sw_packet_decode spFailCodec (some ⟨⟨9, 9, none, 0⟩, ()⟩) (some [5, 6, 130, 60])
       sw_reset_statistics).1 = 0 ∧
    (sw_packet_decode spFailCodec (some ⟨⟨9, 9, none, 0⟩, ()⟩) (some [5, 6, 130, 60])
       sw_reset_statistics).2.1 ≠ some ⟨⟨9, 9, none, 0⟩, ()⟩ ∧
    (sw_frame_decode (some ⟨9, 9, none, 0⟩) (some [5, 6, 130, 60])).1 = 1 := by
  refine ⟨by decide, by decide, by decide⟩

/-- C6 amended.  When frame decoding succeeds but the external packet
codec fails to parse the frame payload, `sw_packet_decode` fails
(returns 0) and no parsed packet is stored, but the embedded frame fields
have already been overwritten with the decoded frame; the statistics are
untouched. -/
theorem sw_packet_decode_parse_fail {α : Type} (c : sp_codec α)
    (pf : sw_packet_frame_t α) (b : List Nat) (fr : sw_frame_t)
    (s : sw_statistics_t)
    (hfd : sw_frame_decode (some pf.frame) (some b) = (1, some fr))
    (hparse : c.parse (fr.payload.getD []) = none) :
    sw_packet_decode c (some pf) (some b) s = (0, some { pf with frame := fr }, s) := by
  simp only [sw_packet_decode, hfd, hparse]

/-- Witness for the amended C6 at the concrete failing parse. -/
theorem sw_packet_decode_parse_fail_witness :
    sw_packet_decode spFailCodec (some ⟨⟨9, 9, none, 0⟩, ()⟩) (some [5, 6, 130, 60])
      sw_reset_statistics
      = (0, some ⟨⟨5, 6, some [], 0⟩, ()⟩, sw_reset_statistics) :=
  sw_packet_decode_parse_fail spFailCodec ⟨⟨9, 9, none, 0⟩, ()⟩ [5, 6, 130, 60]
    ⟨5, 6, some [], 0⟩ sw_reset_statistics (by decide) rfl

/-- C9.  Whenever `sw_packet_encode` or `sw_packet_decode` fails (returns
0), the statistics record is not modified by the call. -/
theorem sw_packet_stats_untouched_on_failure {α : Type} (c : sp_codec α)
    (pf : Option (sw_packet_frame_t α)) (buf : Option (List Nat))
    (s : sw_statistics_t) :
    ((sw_packet_encode c pf buf s).1 = 0 → (sw_packet_encode c pf buf s).2.2 = s) ∧
    ((sw_packet_decode c pf buf s).1 = 0 → (sw_packet_decode c pf buf s).2.2 = s) := by
  constructor
  · rcases pf with _ | pf <;> rcases buf with _ | b
    · intro _
      rfl
    · intro _
      rfl
    · intro _
      rfl
    · simp only [sw_packet_encode]
      split
      · intro _
        rfl
      · split
        · intro _
          rfl
        · split
          · intro h0
            simp only at h0
            omega
          · intro _
            rfl
  · rcases pf with _ | pf <;> rcases buf with _ | b
    · intro _
      rfl
    · intro _
      rfl
    · intro _
      rfl
    · rcases hfd : sw_frame_decode (some pf.frame) (some b) with ⟨fret, fr⟩
      rcases fret with _ | k
      · simp only [sw_packet_decode, hfd]
        intro _
        trivial
      · rcases fr with _ | fr
        · simp only [sw_packet_decode, hfd]
          intro _
          trivial
        · rcases hp : c.parse (fr.payload.getD []) with _ | pkt
          · simp only [sw_packet_decode, hfd, hp]
            intro _
            trivial
          · simp only [sw_packet_decode, hfd, hp]
            intro h0
            omega

/-- Witness for C9: a failing encode (NULL context) and a failing decode
(checksum mismatch) both leave the statistics unchanged. -/
theorem sw_packet_stats_untouched_on_failure_witness :
    (sw_packet_encode spFailCodec none none sw_reset_statistics).2.2
      = sw_reset_statistics ∧
    (sw_packet_decode spFailCodec (some ⟨⟨9, 9, none, 0⟩, ()⟩) (some [1, 2, 0, 0])
       sw_reset_statistics).2.2 = sw_reset_statistics :=
  ⟨(sw_packet_stats_untouched_on_failure spFailCodec none none sw_reset_statistics).1 rfl,
   (sw_packet_stats_untouched_on_failure spFailCodec (some ⟨⟨9, 9, none, 0⟩, ()⟩)
      (some [1, 2, 0, 0]) sw_reset_statistics).2 (by decide)⟩
